import Mathlib

/-!
Verification of the Swasthya Saathi frontend (React/TypeScript) against its
natural-language specification.  The definitions below are a shallow
embedding of the repository's source files:

* `ParameterDetails` — the hard-coded parameter table of
  `src/app/components/ParameterDetails.tsx`;
* `ApiService` — the fetch wrapper and endpoint methods of the API service
  module (`APIService` class) together with the `ReportProvider` /
  `LandingScreen` error handling;
* `TrendsViewMock` — the hard-coded trend data of the mock `TrendsView`
  component (health score series, per-parameter series, tab state machine);
* `TrendsApi` — the status derivation of the API-backed `TrendsView.tsx`;
* `ReportOverview` — the abnormal-parameter list rendering of
  `ReportOverview.tsx`.

Numeric literals of the TypeScript source are decimal literals with at most
one fractional digit; they are embedded exactly by the type `Dec` (an
integer numerator over a power-of-ten denominator).  Comparisons on `Dec`
are by cross multiplication over `ℤ`, which agrees with the JavaScript
number comparisons for every literal appearing in the source.
-/

/-- Tri-state parameter status, the `'normal' | 'high' | 'low'` union of the
TypeScript `Parameter` interface. -/
inductive Status where
  | normal : Status
  | high : Status
  | low : Status
deriving DecidableEq, Repr

/-- An exact decimal number: value is `num / den` where `den` is a power of
ten.  Embeds the JavaScript decimal literals of the source exactly. -/
structure Dec where
  num : ℤ
  den : ℕ
deriving DecidableEq, Repr

namespace Dec

/-- A whole-number literal such as `210`. -/
def whole (n : ℤ) : Dec := ⟨n, 1⟩

/-- A literal with one fractional digit, given in tenths:
`tenth 132` is the literal `13.2`. -/
def tenth (n : ℤ) : Dec := ⟨n, 10⟩

/-- Value order by cross multiplication: `a.num/a.den < b.num/b.den`. -/
def Lt (a b : Dec) : Prop := a.num * (b.den : ℤ) < b.num * (a.den : ℤ)

instance (a b : Dec) : Decidable (Lt a b) := by
  unfold Lt
  infer_instance

end Dec

namespace ParameterDetails

/-- The `Parameter` interface of `ParameterDetails.tsx`: name, value, unit
and reference range are displayed as strings; `status` is the tri-state
field; `explanation` is optional. -/
structure PDParameter where
  name : String
  value : String
  unit : String
  referenceRange : String
  status : Status
  category : String
  explanation : Option String
deriving DecidableEq, Repr

/-- The hard-coded `parameters` array of `ParameterDetails.tsx`. -/
def parameters : List PDParameter := [
  { name := "Hemoglobin", value := "11.2", unit := "g/dL",
    referenceRange := "13.0 - 17.0", status := .low, category := "Blood Count",
    explanation := some "Hemoglobin carries oxygen throughout the body. Lower values may indicate iron deficiency or other conditions." },
  { name := "White Blood Cell Count", value := "7.5", unit := "×10³/μL",
    referenceRange := "4.0 - 11.0", status := .normal, category := "Blood Count",
    explanation := none },
  { name := "Total Cholesterol", value := "245", unit := "mg/dL",
    referenceRange := "< 200", status := .high, category := "Lipid Profile",
    explanation := some "Total cholesterol includes HDL, LDL, and other lipid components. Values above 200 mg/dL are considered elevated." },
  { name := "HDL Cholesterol", value := "48", unit := "mg/dL",
    referenceRange := "> 40", status := .normal, category := "Lipid Profile",
    explanation := none },
  { name := "LDL Cholesterol", value := "165", unit := "mg/dL",
    referenceRange := "< 100", status := .high, category := "Lipid Profile",
    explanation := some "LDL is often called 'bad cholesterol'. Elevated levels may contribute to cardiovascular risk factors." },
  { name := "Triglycerides", value := "142", unit := "mg/dL",
    referenceRange := "< 150", status := .normal, category := "Lipid Profile",
    explanation := none },
  { name := "Fasting Glucose", value := "94", unit := "mg/dL",
    referenceRange := "70 - 100", status := .normal, category := "Metabolic",
    explanation := none },
  { name := "HbA1c", value := "5.6", unit := "%",
    referenceRange := "< 5.7", status := .normal, category := "Metabolic",
    explanation := none },
  { name := "Vitamin D", value := "18", unit := "ng/mL",
    referenceRange := "30 - 100", status := .low, category := "Vitamins",
    explanation := some "Vitamin D supports bone health and immune function. Values below 30 ng/mL are considered insufficient." },
  { name := "Vitamin B12", value := "425", unit := "pg/mL",
    referenceRange := "200 - 900", status := .normal, category := "Vitamins",
    explanation := none }
]

end ParameterDetails

/-! ### Spec-side classification (refinement counterpart for the status field)

The spec states that a parameter's tri-state status is the classification of
its numeric value against its reference range: `'low'` exactly when the
value is below the range's lower bound, `'high'` exactly when it is above
the upper bound (or above the bound of a `< N` range), and `'normal'`
otherwise.  The source stores value and range as strings, so the spec-side
classification parses the decimal value string and the range string (of one
of the three shapes occurring in the source: `lo - hi`, `< N`, `> N`) and
compares. -/

namespace SpecClassify

/-- A parsed reference range: a two-sided range `lo - hi`, an upper-bound
range `< N`, or a lower-bound range `> N`. -/
inductive RefRange where
  | between : Dec → Dec → RefRange
  | lessThan : Dec → RefRange
  | greaterThan : Dec → RefRange
deriving DecidableEq, Repr

/-- Numeric value of a digit character, if it is one. -/
def digitVal (c : Char) : Option ℕ :=
  if '0' ≤ c ∧ c ≤ '9' then some (c.toNat - '0'.toNat) else none

/-- Split a leading run of digits off a character list. -/
def takeDigits : List Char → (List ℕ × List Char)
  | [] => ([], [])
  | c :: cs =>
    match digitVal c with
    | some d =>
      let (ds, rest) := takeDigits cs
      (d :: ds, rest)
    | none => ([], c :: cs)

/-- The natural number denoted by a list of decimal digits. -/
def natOfDigits (ds : List ℕ) : ℕ := ds.foldl (fun a d => 10 * a + d) 0

/-- `pow10 k = 10 ^ k`, structurally. -/
def pow10 : ℕ → ℕ
  | 0 => 1
  | n + 1 => 10 * pow10 n

/-- Parse a decimal literal such as `"11.2"` or `"245"` into an exact
decimal number.  Fails on anything but `digits` or `digits.digits`. -/
def parseDecimal (cs : List Char) : Option Dec :=
  let (ds, rest) := takeDigits cs
  if ds.isEmpty then none
  else
    match rest with
    | [] => some ⟨(natOfDigits ds : ℤ), 1⟩
    | '.' :: rest2 =>
      let (fs, rest3) := takeDigits rest2
      if fs.isEmpty || !rest3.isEmpty then none
      else some ⟨(natOfDigits ds * pow10 fs.length + natOfDigits fs : ℤ), pow10 fs.length⟩
    | _ => none

/-- Split a character list at the first occurrence of `" - "`. -/
def splitDash : List Char → Option (List Char × List Char)
  | [] => none
  | ' ' :: '-' :: ' ' :: rest => some ([], rest)
  | c :: rest =>
    match splitDash rest with
    | some (a, b) => some (c :: a, b)
    | none => none

/-- Parse a reference-range string of one of the three source shapes. -/
def parseRange (cs : List Char) : Option RefRange :=
  match cs with
  | '<' :: ' ' :: rest => (parseDecimal rest).map .lessThan
  | '>' :: ' ' :: rest => (parseDecimal rest).map .greaterThan
  | _ =>
    match splitDash cs with
    | some (a, b) =>
      match parseDecimal a, parseDecimal b with
      | some lo, some hi => some (.between lo hi)
      | _, _ => none
    | none => none

/-- The value is below the range's lower bound (a `< N` range has none). -/
def belowLower (v : Dec) (r : RefRange) : Prop :=
  match r with
  | .between lo _ => v.Lt lo
  | .lessThan _ => False
  | .greaterThan lo => v.Lt lo

instance (v : Dec) (r : RefRange) : Decidable (belowLower v r) := by
  unfold belowLower
  cases r <;> infer_instance

/-- The value is above the range's upper bound (a `> N` range has none). -/
def aboveUpper (v : Dec) (r : RefRange) : Prop :=
  match r with
  | .between _ hi => hi.Lt v
  | .lessThan hi => hi.Lt v
  | .greaterThan _ => False

instance (v : Dec) (r : RefRange) : Decidable (aboveUpper v r) := by
  unfold aboveUpper
  cases r <;> infer_instance

/-- The spec's classification: `low` exactly when below the lower bound,
`high` exactly when above the upper bound, `normal` otherwise. -/
def classify (v : Dec) (r : RefRange) : Status :=
  if belowLower v r then .low
  else if aboveUpper v r then .high
  else .normal

/-- Spec-side status of a displayed parameter: parse its value string and
reference-range string, then classify. -/
def statusOf (p : ParameterDetails.PDParameter) : Option Status :=
  match parseDecimal p.value.toList, parseRange p.referenceRange.toList with
  | some v, some r => some (classify v r)
  | _, _ => none

end SpecClassify

namespace TrendsApi

/-- One point of a per-parameter trend series (`TrendDataPoint` of the API
service module and the rows of the mock data). -/
structure TrendPoint where
  date : String
  value : Dec
  refLow : Dec
  refHigh : Dec
deriving DecidableEq, Repr

/-- Status derivation of the API-backed `TrendsView.tsx`: take the last
point of the series; `'low'` if its value is below `refLow`, else `'high'`
if above `refHigh`, else `'normal'` (also when the series is empty). -/
def trendStatus (points : List TrendPoint) : Status :=
  match points.getLast? with
  | none => .normal
  | some lastPoint =>
    if lastPoint.value.Lt lastPoint.refLow then .low
    else if lastPoint.refHigh.Lt lastPoint.value then .high
    else .normal

end TrendsApi

/-- Spec-side status of a trend series: classify the last point's value
against the two-sided range `[refLow, refHigh]`; `none` for an empty
series. -/
def SpecClassify.seriesStatus (points : List TrendsApi.TrendPoint) : Option Status :=
  points.getLast?.map fun lp => SpecClassify.classify lp.value (.between lp.refLow lp.refHigh)

namespace TrendsViewMock

/-- One point of the mock health-score series. -/
structure ScorePoint where
  date : String
  score : ℤ
deriving DecidableEq, Repr

/-- The hard-coded `healthScoreData` array of the mock `TrendsView`. -/
def healthScoreData : List ScorePoint := [
  ⟨"Jun 2025", 78⟩,
  ⟨"Aug 2025", 75⟩,
  ⟨"Oct 2025", 72⟩,
  ⟨"Dec 2025", 70⟩,
  ⟨"Jan 2026", 68⟩
]

/-- The `domain={[0, 100]}` prop of the health-score chart's Y axis. -/
def yAxisScoreDomain : ℤ × ℤ := (0, 100)

/-- The `hemoglobin` series of the hard-coded `parameterData` record.
`Dec.tenth 132` is the source literal `13.2`, and so on. -/
def hemoglobinSeries : List TrendsApi.TrendPoint := [
  ⟨"Jun 2025", .tenth 132, .tenth 130, .tenth 170⟩,
  ⟨"Aug 2025", .tenth 128, .tenth 130, .tenth 170⟩,
  ⟨"Oct 2025", .tenth 121, .tenth 130, .tenth 170⟩,
  ⟨"Dec 2025", .tenth 116, .tenth 130, .tenth 170⟩,
  ⟨"Jan 2026", .tenth 112, .tenth 130, .tenth 170⟩
]

/-- The `cholesterol` series of the hard-coded `parameterData` record. -/
def cholesterolSeries : List TrendsApi.TrendPoint := [
  ⟨"Jun 2025", .whole 210, .whole 0, .whole 200⟩,
  ⟨"Aug 2025", .whole 218, .whole 0, .whole 200⟩,
  ⟨"Oct 2025", .whole 232, .whole 0, .whole 200⟩,
  ⟨"Dec 2025", .whole 238, .whole 0, .whole 200⟩,
  ⟨"Jan 2026", .whole 245, .whole 0, .whole 200⟩
]

/-- The `vitaminD` series of the hard-coded `parameterData` record. -/
def vitaminDSeries : List TrendsApi.TrendPoint := [
  ⟨"Jun 2025", .whole 28, .whole 30, .whole 100⟩,
  ⟨"Aug 2025", .whole 25, .whole 30, .whole 100⟩,
  ⟨"Oct 2025", .whole 22, .whole 30, .whole 100⟩,
  ⟨"Dec 2025", .whole 20, .whole 30, .whole 100⟩,
  ⟨"Jan 2026", .whole 18, .whole 30, .whole 100⟩
]

/-- The `parameterData` record of the mock `TrendsView`, as an association
list keyed by parameter id. -/
def parameterData : List (String × List TrendsApi.TrendPoint) := [
  ("hemoglobin", hemoglobinSeries),
  ("cholesterol", cholesterolSeries),
  ("vitaminD", vitaminDSeries)
]

/-- An entry of the mock `parameters` array (tab descriptors). -/
structure TVParam where
  id : String
  name : String
  unit : String
  trend : String
deriving DecidableEq, Repr

/-- The hard-coded `parameters` array of the mock `TrendsView`. -/
def parameters : List TVParam := [
  ⟨"hemoglobin", "Hemoglobin", "g/dL", "down"⟩,
  ⟨"cholesterol", "Total Cholesterol", "mg/dL", "up"⟩,
  ⟨"vitaminD", "Vitamin D", "ng/mL", "down"⟩
]

/-- `parameterData[selectedParameter]`: association-list lookup. -/
def lookupSeries (s : String) : Option (List TrendsApi.TrendPoint) :=
  (parameterData.find? fun kv => kv.1 == s).map fun kv => kv.2

/-- `parameters.find(p => p.id === selectedParameter)`. -/
def findParam (s : String) : Option TVParam :=
  parameters.find? fun p => p.id == s

/-- Reachable values of the `selectedParameter` state: it is initialised to
`'hemoglobin'` by `useState`, and the only writer is the tab button's
`setSelectedParameter(param.id)` where `param` ranges over `parameters`. -/
inductive SelReachable : String → Prop where
  | start : SelReachable "hemoglobin"
  | select (s : String) (p : TVParam) :
      SelReachable s → p ∈ parameters → SelReachable p.id

end TrendsViewMock

/-- **C1** — Every parameter the frontend displays carries a tri-state
status that equals the classification of its numeric value against its
reference range.  For the hard-coded `parameters` list of
`ParameterDetails`, the stored status agrees with classifying the parsed
value string against the parsed reference-range string (`low` exactly when
below the lower bound, `high` exactly when above the upper bound — also the
bound of a `< N` range — and `normal` otherwise), and the classification
function `SpecClassify.statusOf` reproduces every stored status.  For each
per-parameter trend series of `TrendsView`, the status the frontend
derives (`TrendsApi.trendStatus`) satisfies the same exactly-when
characterisation against the last point's reference bounds. -/
theorem c1_displayed_status_is_range_classification :
    (∀ p ∈ ParameterDetails.parameters, SpecClassify.statusOf p = some p.status)
    ∧ (∀ p ∈ ParameterDetails.parameters, ∃ v r,
        SpecClassify.parseDecimal p.value.toList = some v
        ∧ SpecClassify.parseRange p.referenceRange.toList = some r
        ∧ (p.status = .low ↔ SpecClassify.belowLower v r)
        ∧ (p.status = .high ↔ SpecClassify.aboveUpper v r)
        ∧ (p.status = .normal ↔ (¬ SpecClassify.belowLower v r ∧ ¬ SpecClassify.aboveUpper v r)))
    ∧ (∀ kv ∈ TrendsViewMock.parameterData,
        SpecClassify.seriesStatus kv.2 = some (TrendsApi.trendStatus kv.2)
        ∧ ∃ lp, kv.2.getLast? = some lp
          ∧ (TrendsApi.trendStatus kv.2 = .low ↔ lp.value.Lt lp.refLow)
          ∧ (TrendsApi.trendStatus kv.2 = .high ↔ lp.refHigh.Lt lp.value)
          ∧ (TrendsApi.trendStatus kv.2 = .normal ↔
              (¬ lp.value.Lt lp.refLow ∧ ¬ lp.refHigh.Lt lp.value))) := by
  refine ⟨by decide, ?_, ?_⟩
  · intro p hp
    fin_cases hp <;>
      exact ⟨_, _, rfl, rfl, by decide, by decide, by decide⟩
  · intro kv hkv
    fin_cases hkv <;>
      exact ⟨by decide, _, rfl, by decide, by decide, by decide⟩

/-- **C7** — Every hard-coded Health Clarity Score value of `TrendsView`
lies in `[0, 100]`, and the score chart's Y-axis domain is fixed to
`[0, 100]`. -/
theorem c7_health_score_in_unit_range :
    (∀ pt ∈ TrendsViewMock.healthScoreData, 0 ≤ pt.score ∧ pt.score ≤ 100)
    ∧ TrendsViewMock.yAxisScoreDomain = (0, 100) := by
  decide

/-- **C10** — In every reachable state of the mock `TrendsView`,
`selectedParameter` is one of `hemoglobin`, `cholesterol`, `vitaminD`, so
the lookups `parameterData[selectedParameter]` and
`parameters.find(p => p.id === selectedParameter)` are always defined. -/
theorem c10_selected_parameter_always_valid (s : String)
    (h : TrendsViewMock.SelReachable s) :
    s ∈ (["hemoglobin", "cholesterol", "vitaminD"] : List String)
    ∧ (TrendsViewMock.lookupSeries s).isSome
    ∧ (TrendsViewMock.findParam s).isSome := by
  induction h with
  | start => decide
  | select s p _ hp _ => fin_cases hp <;> decide

/-- Witness for C10 at a concrete reachable state: selecting the
`vitaminD` tab from the initial state. -/
theorem c10_selected_parameter_always_valid_witness :
    TrendsViewMock.SelReachable "vitaminD"
    ∧ ("vitaminD" ∈ (["hemoglobin", "cholesterol", "vitaminD"] : List String)
      ∧ (TrendsViewMock.lookupSeries "vitaminD").isSome
      ∧ (TrendsViewMock.findParam "vitaminD").isSome) :=
  have h : TrendsViewMock.SelReachable "vitaminD" :=
    TrendsViewMock.SelReachable.select "hemoglobin"
      ⟨"vitaminD", "Vitamin D", "ng/mL", "down"⟩
      TrendsViewMock.SelReachable.start (by decide)
  ⟨h, c10_selected_parameter_always_valid "vitaminD" h⟩

namespace ApiService

/-- `const API_BASE_URL = 'http://localhost:8000'`. -/
def API_BASE_URL : String := "http://localhost:8000"

/-- The slice of JavaScript `RequestInit` that the API service module uses:
an optional `method`, whether a `body` is attached, an optional
`Content-Type` header, and an optional `credentials` override. -/
structure RequestInit where
  method : Option String
  hasBody : Bool
  contentType : Option String
  credentials : Option String
deriving DecidableEq, Repr

/-- The options object of the plain GET calls (no `options` argument). -/
def emptyInit : RequestInit := ⟨none, false, none, none⟩

/-- One issued `fetch`, as observable arguments. -/
structure FetchCall where
  url : String
  method : String
  credentials : String
  hasBody : Bool
deriving DecidableEq, Repr

/-- `APIService.request`: `fetch(baseUrl + endpoint,
{ credentials: 'include', ...options })`.  The spread lets `options`
override `credentials`; no caller does, and an absent `method` defaults to
GET. -/
def request (baseUrl endpoint : String) (options : RequestInit) : FetchCall :=
  { url := baseUrl ++ endpoint
    method := options.method.getD "GET"
    credentials := options.credentials.getD "include"
    hasBody := options.hasBody }

/-- `healthCheck()`: `request('/health')`. -/
def healthCheck (baseUrl : String) : FetchCall :=
  request baseUrl "/health" emptyInit

/-- `uploadReport(file)`: POST of form data to `/reports/upload`. -/
def uploadReport (baseUrl : String) : FetchCall :=
  request baseUrl "/reports/upload" ⟨some "POST", true, none, none⟩

/-- `getLatestReport()`: `request('/reports/latest')`. -/
def getLatestReport (baseUrl : String) : FetchCall :=
  request baseUrl "/reports/latest" emptyInit

/-- `getReportHistory()`: `request('/reports/history')`. -/
def getReportHistory (baseUrl : String) : FetchCall :=
  request baseUrl "/reports/history" emptyInit

/-- `getReport(reportId)`: `request('/reports/' + reportId)`. -/
def getReport (baseUrl reportId : String) : FetchCall :=
  request baseUrl ("/reports/" ++ reportId) emptyInit

/-- `getTrends(parameter?)`: optional query string appended to
`/reports/trends/data`.  The `encodeURIComponent` escaping of the query
value is not modelled; no claim depends on it. -/
def getTrends (baseUrl : String) (parameter : Option String) : FetchCall :=
  request baseUrl
    ("/reports/trends/data" ++
      (match parameter with
       | some p => "?parameter=" ++ p
       | none => ""))
    emptyInit

/-- `getHealthScore()`: `request('/reports/health/clarity-score')`. -/
def getHealthScore (baseUrl : String) : FetchCall :=
  request baseUrl "/reports/health/clarity-score" emptyInit

/-- `getTimeline()`: `request('/reports/action-timeline')`. -/
def getTimeline (baseUrl : String) : FetchCall :=
  request baseUrl "/reports/action-timeline" emptyInit

/-- `getExplanation(...)`: POST of a JSON body to `/reports/explain`. -/
def getExplanation (baseUrl : String) : FetchCall :=
  request baseUrl "/reports/explain" ⟨some "POST", true, some "application/json", none⟩

/-- The timeline row of the README's API-endpoint table:
`| /reports/timeline | GET | Get action timeline |`. -/
def documentedTimelineEndpoint : String := "/reports/timeline"

/-- A parsed JSON error body: the `detail` and `message` fields, when they
are present. -/
structure JsonBody where
  detail : Option String
  message : Option String
deriving DecidableEq, Repr

/-- An HTTP response as `request` inspects it: `response.ok` and the parsed
JSON body (`none` when `response.json()` rejects). -/
structure HttpResponse where
  ok : Bool
  body : Option JsonBody
deriving DecidableEq, Repr

/-- Outcome of the single `fetch` of `request`: either a response, or a
rejection with a `TypeError` (network failure). -/
inductive FetchOutcome where
  | response : HttpResponse → FetchOutcome
  | networkFailure : String → FetchOutcome
deriving DecidableEq, Repr

/-- A value thrown out of `request`: either the `new Error(...)` it throws
on a non-2xx response, or the `TypeError` a failed `fetch` rejects with.
Both are `instanceof Error` in JavaScript. -/
inductive Thrown where
  | jsError : String → Thrown
  | typeErrorFetch : String → Thrown
deriving DecidableEq, Repr

/-- `err.message`. -/
def Thrown.message : Thrown → String
  | .jsError m => m
  | .typeErrorFetch m => m

/-- JavaScript truthiness of an optional string field: an absent field and
the empty string are falsy. -/
def truthy : Option String → Option String
  | some s => if s = "" then none else some s
  | none => none

/-- The message of the error `request` throws on a non-2xx response:
`error.detail || error.message || 'Request failed'`, where a body that
fails to parse is replaced by `{ detail: 'Request failed' }` by the
`.catch` handler. -/
def errorMessageOf (body : Option JsonBody) : String :=
  let parsed := body.getD ⟨some "Request failed", none⟩
  ((truthy parsed.detail).or (truthy parsed.message)).getD "Request failed"

/-- Result of `request` for a given fetch outcome: the response when `ok`,
otherwise a thrown error. -/
def requestResult (o : FetchOutcome) : Except Thrown HttpResponse :=
  match o with
  | .networkFailure m => .error (.typeErrorFetch m)
  | .response r => if r.ok then .ok r else .error (.jsError (errorMessageOf r.body))

/-- Trace of one `request` call: the list of fetches it issues (the source
awaits a single `fetch`; there is no loop, retry or fallback) paired with
its result. -/
def requestTrace (baseUrl endpoint : String) (options : RequestInit)
    (o : FetchOutcome) : List FetchCall × Except Thrown HttpResponse :=
  ([request baseUrl endpoint options], requestResult o)

end ApiService

/-- `needle` is a prefix of `hay` (character lists). -/
def startsWithChars : List Char → List Char → Bool
  | [], _ => true
  | _ :: _, [] => false
  | n :: ns, h :: hs => n == h && startsWithChars ns hs

/-- `hay.includes(needle)` on character lists. -/
def containsChars (needle : List Char) : List Char → Bool
  | [] => needle.isEmpty
  | c :: hs => startsWithChars needle (c :: hs) || containsChars needle hs

/-- JavaScript `hay.includes(needle)` for strings. -/
def strIncludes (hay needle : String) : Bool :=
  containsChars needle.toList hay.toList

namespace ReportProvider

/-- The error string `loadLatestReport` stores on failure:
`err instanceof Error ? err.message : 'Failed to load report'`.  Both
modelled throw shapes are `Error`s (a `TypeError` is an `Error`), so the
stored string is always `err.message`. -/
def loadLatestReportStoredError (e : ApiService.Thrown) : String :=
  match e with
  | .jsError m => m
  | .typeErrorFetch m => m

end ReportProvider

namespace LandingScreen

/-- A selected browser `File`: its name, MIME type and byte size. -/
structure JsFile where
  name : String
  mimeType : String
  size : ℕ
deriving DecidableEq, Repr

/-- `const validTypes = [...]` of `validateAndSetFile`. -/
def validTypes : List String :=
  ["application/pdf", "image/png", "image/jpeg", "image/jpg"]

/-- `const maxSize = 10 * 1024 * 1024`. -/
def maxSize : ℕ := 10 * 1024 * 1024

/-- What `validateAndSetFile` does with a file: either it sets an error
string and returns (no selection, no upload), or it selects the file and
starts the upload. -/
inductive ValidateStep where
  | errorSet : String → ValidateStep
  | uploadStarted : JsFile → ValidateStep
deriving DecidableEq, Repr

/-- `validateAndSetFile(file)` of `LandingScreen.tsx`: reject unknown MIME
types, then reject oversized files, otherwise select and auto-upload. -/
def validateAndSetFile (f : JsFile) : ValidateStep :=
  if !(validTypes.contains f.mimeType) then
    .errorSet "Invalid file type. Please upload PDF, PNG, or JPG files."
  else if f.size > maxSize then
    .errorSet "File too large. Maximum size is 10MB."
  else
    .uploadStarted f

/-- The error string `handleUpload`'s catch block stores: a `TypeError`
whose message mentions `fetch` (a network-level failure) is replaced by the
backend-hint message; any other `Error` is stored verbatim. -/
def handleUploadStoredError (e : ApiService.Thrown) : String :=
  match e with
  | .typeErrorFetch m =>
    if strIncludes m "fetch" then
      "Cannot connect to server. Please make sure the backend is running on port 8000."
    else m
  | .jsError m => m

end LandingScreen

namespace ApiModel

/-- The `Parameter` interface of the API service module (backend response
shape). -/
structure Parameter where
  name : String
  value : String
  unit : String
  referenceRange : String
  status : Status
  category : String
  trend : Option String
  explanation : Option String
deriving DecidableEq, Repr

end ApiModel

namespace ReportOverview

/-- The list the 'Parameters Requiring Attention' section renders:
`abnormal_parameters.slice(0, 5)`. -/
def renderedAttention (abnormal : List ApiModel.Parameter) : List ApiModel.Parameter :=
  abnormal.take 5

/-- The 'Parameters Needing Attention' count:
`abnormalCount = abnormal_parameters.length`. -/
def abnormalCount (abnormal : List ApiModel.Parameter) : ℕ :=
  abnormal.length

end ReportOverview

/-- `Array.from(new Set(...))` on a list of strings, element by element:
distinct values in first-occurrence order.  `seen` accumulates the values
already emitted. -/
def jsSetAux : List String → List String → List String
  | _, [] => []
  | seen, c :: cs => if c ∈ seen then jsSetAux seen cs else c :: jsSetAux (c :: seen) cs

/-- `Array.from(new Set(values))`: distinct values of `values` in
first-occurrence order. -/
def jsSetOfList (l : List String) : List String := jsSetAux [] l

/-- `const categories = Array.from(new Set(parameters.map(p => p.category)))`
of `ParameterDetails.tsx`. -/
def ParameterDetails.categories : List String :=
  jsSetOfList (ParameterDetails.parameters.map fun p => p.category)

theorem mem_jsSetAux (x : String) :
    ∀ (l seen : List String), x ∈ jsSetAux seen l ↔ (x ∈ l ∧ x ∉ seen) := by
  intro l
  induction l with
  | nil => intro seen; simp [jsSetAux]
  | cons c cs ih =>
    intro seen
    by_cases hc : c ∈ seen
    · rw [jsSetAux, if_pos hc, ih seen]
      simp only [List.mem_cons]
      constructor
      · rintro ⟨hx, hns⟩
        exact ⟨Or.inr hx, hns⟩
      · rintro ⟨h1 | h1, hns⟩
        · exact absurd (h1 ▸ hc) hns
        · exact ⟨h1, hns⟩
    · rw [jsSetAux, if_neg hc]
      simp only [List.mem_cons, ih (c :: seen)]
      constructor
      · rintro (rfl | ⟨hx, hns⟩)
        · exact ⟨Or.inl rfl, hc⟩
        · exact ⟨Or.inr hx, fun hs => hns (Or.inr hs)⟩
      · rintro ⟨h1 | h1, hns⟩
        · exact Or.inl h1
        · by_cases hxc : x = c
          · exact Or.inl hxc
          · exact Or.inr ⟨h1, fun hs => hs.elim hxc hns⟩

theorem nodup_jsSetAux : ∀ (l seen : List String), (jsSetAux seen l).Nodup := by
  intro l
  induction l with
  | nil => intro seen; simp [jsSetAux]
  | cons c cs ih =>
    intro seen
    by_cases hc : c ∈ seen
    · rw [jsSetAux, if_pos hc]
      exact ih seen
    · rw [jsSetAux, if_neg hc, List.nodup_cons]
      refine ⟨?_, ih (c :: seen)⟩
      intro hmem
      exact ((mem_jsSetAux c cs (c :: seen)).mp hmem).2 (List.mem_cons_self c seen)

/-- Concatenating, over a duplicate-free list of category keys that covers
every element, the per-key filtered sublists is a permutation of the
original list. -/
theorem flatMap_filter_perm {α : Type} (f : α → String) :
    ∀ (cs : List String), cs.Nodup → ∀ (ps : List α), (∀ p ∈ ps, f p ∈ cs) →
      List.Perm (cs.flatMap fun c => ps.filter fun p => f p == c) ps := by
  intro cs
  induction cs with
  | nil =>
    intro _ ps hall
    cases ps with
    | nil => simp
    | cons a t => exact absurd (hall a (List.mem_cons_self a t)) (by simp)
  | cons c cs ih =>
    intro hnd ps hall
    rw [List.nodup_cons] at hnd
    obtain ⟨hcn, hnd2⟩ := hnd
    have hstep : (cs.flatMap fun c2 => ps.filter fun p => f p == c2)
        = cs.flatMap fun c2 => (ps.filter fun p => !(f p == c)).filter fun p => f p == c2 := by
      apply List.flatMap_congr
      intro c2 hc2
      rw [List.filter_filter]
      apply List.filter_congr
      intro a _
      by_cases hfa : (f a == c2) = true
      · have hac : f a = c2 := by simpa using hfa
        have hcc : f a ≠ c := by
          intro hh
          have hcc2 : c2 = c := hac.symm.trans hh
          exact hcn (hcc2 ▸ hc2)
        have hne : (f a == c) = false := by simpa using hcc
        rw [hfa, hne]
        rfl
      · have hne2 : (f a == c2) = false := by simpa using hfa
        rw [hne2]
        simp
    have hperm : List.Perm
        (cs.flatMap fun c2 => (ps.filter fun p => !(f p == c)).filter fun p => f p == c2)
        (ps.filter fun p => !(f p == c)) := by
      apply ih hnd2
      intro p hp
      rw [List.mem_filter] at hp
      obtain ⟨hpp, hneq⟩ := hp
      rcases List.mem_cons.mp (hall p hpp) with h1 | h1
      · have hb : (f p == c) = true := by simpa using h1
        rw [hb] at hneq
        exact absurd hneq (by simp)
      · exact h1
    rw [List.flatMap_cons, hstep]
    exact (List.Perm.append_left _ hperm).trans (List.filter_append_perm _ ps)

/-- **C2 counterexample** — The frontend's timeline call does not request
the README-documented path `/reports/timeline`: `APIService.getTimeline`
requests `/reports/action-timeline` appended to the base URL. -/
theorem c2_timeline_endpoint_counterexample :
    (ApiService.getTimeline ApiService.API_BASE_URL).url
      = "http://localhost:8000/reports/action-timeline"
    ∧ (ApiService.getTimeline ApiService.API_BASE_URL).url
      ≠ ApiService.API_BASE_URL ++ ApiService.documentedTimelineEndpoint := by
  decide

/-- **C2 (amended)** — For every call, `APIService.getTimeline` issues a
GET request (no method override, no body) to `/reports/action-timeline`
appended to the base URL. -/
theorem c2_get_timeline_requests_action_timeline (baseUrl : String) :
    (ApiService.getTimeline baseUrl).url = baseUrl ++ "/reports/action-timeline"
    ∧ (ApiService.getTimeline baseUrl).method = "GET"
    ∧ (ApiService.getTimeline baseUrl).hasBody = false :=
  ⟨rfl, rfl, rfl⟩

/-- **C3** — API failures are handled uniformly: a non-2xx response makes
`request` throw an `Error` whose message is the body's `detail` field when
that is present (and truthy), else its `message` field, else
`'Request failed'` (also when the body fails to parse); `loadLatestReport`
and `handleUpload` store exactly the thrown message in UI state; and the
single special case is a fetch-level `TypeError` during upload, replaced by
the hint that the backend may not be running on port 8000. -/
theorem c3_api_failures_uniform :
    (∀ r : ApiService.HttpResponse, r.ok = false →
      ApiService.requestResult (.response r)
        = .error (.jsError (ApiService.errorMessageOf r.body)))
    ∧ (∀ b : ApiService.JsonBody, ∀ d, ApiService.truthy b.detail = some d →
        ApiService.errorMessageOf (some b) = d)
    ∧ (∀ b : ApiService.JsonBody, ∀ m, ApiService.truthy b.detail = none →
        ApiService.truthy b.message = some m →
        ApiService.errorMessageOf (some b) = m)
    ∧ (∀ b : ApiService.JsonBody, ApiService.truthy b.detail = none →
        ApiService.truthy b.message = none →
        ApiService.errorMessageOf (some b) = "Request failed")
    ∧ ApiService.errorMessageOf none = "Request failed"
    ∧ (∀ m, ReportProvider.loadLatestReportStoredError (.jsError m) = m)
    ∧ (∀ m, LandingScreen.handleUploadStoredError (.jsError m) = m)
    ∧ (∀ m, strIncludes m "fetch" = true →
        LandingScreen.handleUploadStoredError (.typeErrorFetch m)
          = "Cannot connect to server. Please make sure the backend is running on port 8000.")
    ∧ (∀ m, ReportProvider.loadLatestReportStoredError (.typeErrorFetch m) = m) := by
  refine ⟨?_, ?_, ?_, ?_, rfl, fun m => rfl, fun m => rfl, ?_, fun m => rfl⟩
  · intro r hr
    simp [ApiService.requestResult, hr]
  · intro b d h
    simp only [ApiService.errorMessageOf, Option.getD_some, h]
    rfl
  · intro b m h1 h2
    simp only [ApiService.errorMessageOf, Option.getD_some, h1, h2]
    rfl
  · intro b h1 h2
    simp only [ApiService.errorMessageOf, Option.getD_some, h1, h2]
    rfl
  · intro m h
    simp [LandingScreen.handleUploadStoredError, h]

/-- Witness for C3 at concrete inputs: a 500 response with a `detail`
field, bodies exercising each fallback, and a network `TypeError` during
upload. -/
theorem c3_api_failures_uniform_witness :
    ApiService.requestResult (.response ⟨false, some ⟨some "boom", some "other"⟩⟩)
      = .error (.jsError "boom")
    ∧ ApiService.errorMessageOf (some ⟨some "boom", some "other"⟩) = "boom"
    ∧ ApiService.errorMessageOf (some ⟨none, some "other"⟩) = "other"
    ∧ ApiService.errorMessageOf (some ⟨none, none⟩) = "Request failed"
    ∧ LandingScreen.handleUploadStoredError (.typeErrorFetch "Failed to fetch")
      = "Cannot connect to server. Please make sure the backend is running on port 8000." := by
  obtain ⟨h1, h2, h3, h4, _, _, _, h8, _⟩ := c3_api_failures_uniform
  refine ⟨?_, ?_, ?_, ?_, ?_⟩
  · have hres := h1 ⟨false, some ⟨some "boom", some "other"⟩⟩ rfl
    simpa using hres
  · exact h2 ⟨some "boom", some "other"⟩ "boom" (by decide)
  · exact h3 ⟨none, some "other"⟩ "other" (by decide) (by decide)
  · exact h4 ⟨none, none⟩ (by decide) (by decide)
  · exact h8 "Failed to fetch" (by decide)

/-- **C4** — `validateAndSetFile` starts an upload only for the four
accepted MIME types; every file of any other type gets exactly the
invalid-type error and is neither selected nor uploaded. -/
theorem c4_invalid_file_type_rejected (f : LandingScreen.JsFile) :
    (f.mimeType ∉ LandingScreen.validTypes →
      LandingScreen.validateAndSetFile f
        = .errorSet "Invalid file type. Please upload PDF, PNG, or JPG files.")
    ∧ (∀ g, LandingScreen.validateAndSetFile f = .uploadStarted g →
        f.mimeType ∈ LandingScreen.validTypes ∧ g = f) := by
  constructor
  · intro h
    simp [LandingScreen.validateAndSetFile, h]
  · intro g hg
    by_cases h1 : f.mimeType ∈ LandingScreen.validTypes
    · refine ⟨h1, ?_⟩
      by_cases h2 : f.size > LandingScreen.maxSize
      · simp [LandingScreen.validateAndSetFile, h1, h2] at hg
      · simp [LandingScreen.validateAndSetFile, h1, h2] at hg
        exact hg.symm
    · simp [LandingScreen.validateAndSetFile, h1] at hg

/-- Witness for C4 at a concrete file: a plain-text file is rejected with
the invalid-type error. -/
theorem c4_invalid_file_type_rejected_witness :
    (⟨"notes.txt", "text/plain", 1000⟩ : LandingScreen.JsFile).mimeType
      ∉ LandingScreen.validTypes
    ∧ LandingScreen.validateAndSetFile ⟨"notes.txt", "text/plain", 1000⟩
      = .errorSet "Invalid file type. Please upload PDF, PNG, or JPG files." :=
  ⟨by decide, (c4_invalid_file_type_rejected ⟨"notes.txt", "text/plain", 1000⟩).1 (by decide)⟩

/-- **C5** — Every request issued through `APIService.request` — hence
every API operation — carries `credentials: 'include'`. -/
theorem c5_all_requests_include_credentials
    (baseUrl reportId : String) (parameter : Option String) :
    (ApiService.healthCheck baseUrl).credentials = "include"
    ∧ (ApiService.uploadReport baseUrl).credentials = "include"
    ∧ (ApiService.getLatestReport baseUrl).credentials = "include"
    ∧ (ApiService.getReportHistory baseUrl).credentials = "include"
    ∧ (ApiService.getReport baseUrl reportId).credentials = "include"
    ∧ (ApiService.getTrends baseUrl parameter).credentials = "include"
    ∧ (ApiService.getHealthScore baseUrl).credentials = "include"
    ∧ (ApiService.getTimeline baseUrl).credentials = "include"
    ∧ (ApiService.getExplanation baseUrl).credentials = "include" :=
  ⟨rfl, rfl, rfl, rfl, rfl, rfl, rfl, rfl, rfl⟩

/-- **C6** — A call through `APIService.request` performs exactly one
fetch; any failure is propagated to the caller unchanged, with no retry,
backoff or recovery. -/
theorem c6_single_fetch_no_retry (baseUrl endpoint : String)
    (options : ApiService.RequestInit) (o : ApiService.FetchOutcome) :
    (ApiService.requestTrace baseUrl endpoint options o).1.length = 1
    ∧ (ApiService.requestTrace baseUrl endpoint options o).1
        = [ApiService.request baseUrl endpoint options]
    ∧ (∀ e, ApiService.requestResult o = .error e →
        (ApiService.requestTrace baseUrl endpoint options o).2 = .error e)
    ∧ (∀ m, o = .networkFailure m →
        (ApiService.requestTrace baseUrl endpoint options o).2
          = .error (.typeErrorFetch m)) := by
  refine ⟨rfl, rfl, ?_, ?_⟩
  · intro e he
    exact he
  · intro m hm
    subst hm
    rfl

/-- Witness for C6 at a concrete failing call: a network failure of the
latest-report fetch is surfaced as the thrown `TypeError`, after exactly
one fetch. -/
theorem c6_single_fetch_no_retry_witness :
    (ApiService.requestTrace ApiService.API_BASE_URL "/reports/latest"
      ApiService.emptyInit (.networkFailure "Failed to fetch")).1.length = 1
    ∧ (ApiService.requestTrace ApiService.API_BASE_URL "/reports/latest"
        ApiService.emptyInit (.networkFailure "Failed to fetch")).2
      = .error (.typeErrorFetch "Failed to fetch") := by
  have h := c6_single_fetch_no_retry ApiService.API_BASE_URL "/reports/latest"
    ApiService.emptyInit (.networkFailure "Failed to fetch")
  exact ⟨h.1, h.2.2.2 "Failed to fetch" rfl⟩

/-- **C8** — The 'Parameters Requiring Attention' section renders exactly
the first `min 5 (length)` abnormal parameters, in list order, and the
'Parameters Needing Attention' count is the full list length. -/
theorem c8_attention_renders_first_five (l : List ApiModel.Parameter) :
    ReportOverview.renderedAttention l = l.take 5
    ∧ (ReportOverview.renderedAttention l).length = min 5 l.length
    ∧ (∀ i (h1 : i < (ReportOverview.renderedAttention l).length)
        (h2 : i < l.length),
        (ReportOverview.renderedAttention l).get ⟨i, h1⟩ = l.get ⟨i, h2⟩)
    ∧ ReportOverview.abnormalCount l = l.length := by
  refine ⟨rfl, by simp [ReportOverview.renderedAttention], ?_, rfl⟩
  intro i h1 h2
  simp [ReportOverview.renderedAttention, List.getElem_take]

/-- A sample abnormal parameter used by the C8 witness. -/
def sampleParam (n : String) : ApiModel.Parameter :=
  ⟨n, "1", "u", "0 - 2", .high, "c", none, none⟩

/-- Witness for C8 at a concrete six-element list: five parameters are
rendered, position 0 agrees, and the shown count is six. -/
theorem c8_attention_renders_first_five_witness :
    (ReportOverview.renderedAttention (List.replicate 6 (sampleParam "A"))).length
      = min 5 (List.replicate 6 (sampleParam "A")).length
    ∧ (ReportOverview.renderedAttention (List.replicate 6 (sampleParam "A"))).get
        ⟨0, by decide⟩
      = (List.replicate 6 (sampleParam "A")).get ⟨0, by decide⟩
    ∧ ReportOverview.abnormalCount (List.replicate 6 (sampleParam "A")) = 6 := by
  have h := c8_attention_renders_first_five (List.replicate 6 (sampleParam "A"))
  exact ⟨h.2.1, h.2.2.1 0 (by decide) (by decide), h.2.2.2.trans rfl⟩

/-- **C9** — The category grouping of `ParameterDetails` is a partition of
the parameter list: `categories` is duplicate-free, contains exactly the
category values occurring in the list (and equals the first-occurrence
order list for the hard-coded data), concatenating the per-category
filtered sublists is a permutation of the parameter list (every parameter
exactly once), and each filtered sublist is a sublist of the original
(preserving relative order). -/
theorem c9_category_grouping_is_partition :
    ParameterDetails.categories.Nodup
    ∧ (∀ c, c ∈ ParameterDetails.categories
        ↔ c ∈ ParameterDetails.parameters.map fun p => p.category)
    ∧ ParameterDetails.categories
        = ["Blood Count", "Lipid Profile", "Metabolic", "Vitamins"]
    ∧ List.Perm
        (ParameterDetails.categories.flatMap fun c =>
          ParameterDetails.parameters.filter fun p => p.category == c)
        ParameterDetails.parameters
    ∧ (∀ c, List.Sublist
        (ParameterDetails.parameters.filter fun p => p.category == c)
        ParameterDetails.parameters) := by
  have hnd : ParameterDetails.categories.Nodup := nodup_jsSetAux _ []
  have hmem : ∀ c, c ∈ ParameterDetails.categories
      ↔ c ∈ ParameterDetails.parameters.map fun p => p.category := by
    intro c
    rw [ParameterDetails.categories, jsSetOfList, mem_jsSetAux]
    simp
  refine ⟨hnd, hmem, by decide, ?_, fun c => List.filter_sublist _⟩
  exact flatMap_filter_perm (fun p => p.category) ParameterDetails.categories hnd
    ParameterDetails.parameters
    (fun p hp => (hmem p.category).mpr (List.mem_map_of_mem _ hp))

/-- Witness for C1 at a concrete displayed parameter: the first
`ParameterDetails` entry (Hemoglobin, 11.2 against 13.0 - 17.0) is
classified `low`, matching its stored status. -/
theorem c1_displayed_status_witness :
    SpecClassify.statusOf (ParameterDetails.parameters.get ⟨0, by decide⟩)
      = some Status.low :=
  c1_displayed_status_is_range_classification.1
    (ParameterDetails.parameters.get ⟨0, by decide⟩) (by decide)

/-- Witness for C7 at a concrete chart point: the first health-score entry
(78) lies in `[0, 100]`, and the Y-axis domain is `[0, 100]`. -/
theorem c7_health_score_witness :
    (0 ≤ (⟨"Jun 2025", 78⟩ : TrendsViewMock.ScorePoint).score
      ∧ (⟨"Jun 2025", 78⟩ : TrendsViewMock.ScorePoint).score ≤ 100)
    ∧ TrendsViewMock.yAxisScoreDomain = (0, 100) :=
  ⟨c7_health_score_in_unit_range.1 ⟨"Jun 2025", 78⟩ (by decide),
   c7_health_score_in_unit_range.2⟩
